import Mathlib

/-!
Verification of the DragDrop acquirer plugin (drag-and-drop file intake).

The plugin translates browser file-acquisition events (picker change,
drag-over, drag-leave, drop) into descriptor batches handed to a host
orchestrator (uppy).  We embed each event handler as a pure function that
returns the ordered list of observable actions it performs; drag state
(the isDraggingOver flag and the drag-leave debounce timer) is recovered
by folding those actions over a machine state.
-/

namespace DragDrop

/-- Raw platform file handle as seen by the plugin.  `relativePath` is
absent (`none`) for directly picked files; directory expansion during a
drop supplies it as a string (possibly empty, which JS treats as falsy). -/
structure UppyFile where
  name : String
  type : String
  relativePath : Option String
deriving DecidableEq, Repr

/-- Canonical file descriptor built by `addFiles`: the object literal
`{ source, name, type, data, meta: { relativePath } }` from the source. -/
structure FileDescriptor where
  source : String
  name : String
  type : String
  data : UppyFile
  meta_relativePath : Option String
deriving DecidableEq, Repr

/-- Drag event payload: the dataTransfer type manifest and the files that
directory traversal (getDroppedFiles) extracts from the payload. -/
structure DragEvent where
  types : List String
  files : List UppyFile
deriving DecidableEq, Repr

/-- Observable actions a handler performs, in program order. -/
inductive Action where
  | preventDefault
  | stopPropagation
  | setDropEffect (effect : String)
  | clearTimeout
  | setTimeout (delayMs : Nat)
  | setDraggingOver (b : Bool)
  | invokeCallback (kind : String) (event : DragEvent)
  | raiseTypeError
  | logged (msg : String)
  | getDroppedFiles
  | submit (descriptors : List FileDescriptor)
  | clearInput
deriving DecidableEq, Repr

/-- Plugin options: the plugin id and which observer callbacks the host
registered (the JSDoc typedef marks all three callbacks optional). -/
structure Opts where
  id : String
  onDragOver : Bool
  onDragLeave : Bool
  onDrop : Bool
deriving DecidableEq, Repr

/-- Host orchestrator context: the allow-new-uploads flag exposed through
`uppy.getState()` and the file-registration entry point `uppy.addFiles`,
which may reject a batch with an error. -/
structure UppyCtx where
  allowNewUpload : Bool
  addFilesFn : List FileDescriptor → Except String Unit

/-- JS expression `x || null` applied to an optional string field: both an
absent value and the empty string (falsy) collapse to null. -/
def jsOrNull : Option String → Option String
  | some s => if s = "" then none else some s
  | none => none

/-- One element of the descriptor-building map inside `addFiles`:
`{ source: this.id, name, type, data: file, meta: { relativePath: file.relativePath || null } }`. -/
def buildDescriptor (id : String) (file : UppyFile) : FileDescriptor :=
  { source := id
    name := file.name
    type := file.type
    data := file
    meta_relativePath := jsOrNull file.relativePath }

/-- The `files.map(...)` step of `addFiles`. -/
def buildDescriptors (id : String) (files : List UppyFile) : List FileDescriptor :=
  files.map (buildDescriptor id)

/-- Embedding of `addFiles`: build descriptors, call `uppy.addFiles` in a
try block, and on rejection log the error instead of rethrowing. -/
def addFiles (opts : Opts) (uppy : UppyCtx) (files : List UppyFile) : List Action :=
  let descriptors := buildDescriptors opts.id files
  Action.submit descriptors ::
    match uppy.addFilesFn descriptors with
    | Except.ok _ => []
    | Except.error err => [Action.logged err]

/-- The check `types.some((type) => type === 'Files')` on the payload's
declared type manifest. -/
def hasFilesType (types : List String) : Bool :=
  types.any (fun t => t == "Files")

/-- Embedding of `handleDragOver`.  The rejecting branch (no file-bearing
type in the manifest, or new uploads disallowed) sets the drop effect to
"none", cancels any pending debounce timer and returns; the accepting
branch sets the drop effect to "copy", cancels the timer, records
isDraggingOver = true and then evaluates `this.opts?.onDragOver(event)`,
which raises a TypeError when no onDragOver callback was registered
(opts itself is never nullish, so the optional chain does not guard the
call). -/
def handleDragOver (opts : Opts) (uppy : UppyCtx) (event : DragEvent) : List Action :=
  [Action.preventDefault, Action.stopPropagation] ++
    (if !hasFilesType event.types || !uppy.allowNewUpload then
      [Action.setDropEffect "none", Action.clearTimeout]
    else
      [Action.setDropEffect "copy", Action.clearTimeout, Action.setDraggingOver true] ++
        (if opts.onDragOver then [Action.invokeCallback "dragover" event]
         else [Action.raiseTypeError]))

/-- Embedding of `handleDragLeave`: cancel any pending debounce timer,
schedule the isDraggingOver reset after 50 ms, then evaluate
`this.opts?.onDragLeave(event)`, which raises a TypeError when no
onDragLeave callback was registered. -/
def handleDragLeave (opts : Opts) (event : DragEvent) : List Action :=
  [Action.preventDefault, Action.stopPropagation, Action.clearTimeout,
   Action.setTimeout 50] ++
    (if opts.onDragLeave then [Action.invokeCallback "dragleave" event]
     else [Action.raiseTypeError])

/-- Embedding of `handleDrop`: suppress the default action, cancel any
pending debounce timer, reset isDraggingOver immediately, await
getDroppedFiles (directory traversal), submit the extracted files through
`addFiles` when non-empty, and finally evaluate `this.opts.onDrop?.(event)`
(a correctly guarded optional call: no TypeError when absent).  Note the
handler consults neither the type manifest nor the allow-new-uploads
flag. -/
def handleDrop (opts : Opts) (uppy : UppyCtx) (event : DragEvent) : List Action :=
  [Action.preventDefault, Action.stopPropagation, Action.clearTimeout,
   Action.setDraggingOver false, Action.getDroppedFiles] ++
    (if event.files.length > 0 then
      Action.logged "[DragDrop] Files dropped" :: addFiles opts uppy event.files
    else []) ++
    (if opts.onDrop then [Action.invokeCallback "drop" event] else [])

/-- Embedding of `onInputChange`: when the picker change event carries a
non-empty file collection, log and hand the files to `addFiles`; then
clear the input control.  The handler never queries the orchestrator
state. -/
def onInputChange (opts : Opts) (uppy : UppyCtx) (files : List UppyFile) : List Action :=
  (if files.length > 0 then
    Action.logged "[DragDrop] Files selected through input" :: addFiles opts uppy files
  else []) ++ [Action.clearInput]

/-- Drag machine state: the isDraggingOver plugin flag and the pending
debounce timer (absolute fire time in ms), mirroring the instance field
`removeDragOverClassTimeout`. -/
structure MachineState where
  isDraggingOver : Bool
  timer : Option Nat
deriving DecidableEq, Repr

/-- Effect of one action on the drag machine state, when performed at
time `now`.  The scheduled timeout body is `setPluginState({
isDraggingOver: false })`, captured by `elapse` when the timer fires. -/
def applyAction (now : Nat) (s : MachineState) : Action → MachineState
  | Action.clearTimeout => { s with timer := none }
  | Action.setTimeout d => { s with timer := some (now + d) }
  | Action.setDraggingOver b => { s with isDraggingOver := b }
  | _ => s

/-- Fold a handler trace over the machine state at time `now`. -/
def runTrace (now : Nat) (s : MachineState) (tr : List Action) : MachineState :=
  tr.foldl (applyAction now) s

/-- Advance wall-clock time to `now`: a pending timer whose fire time has
passed runs its body, resetting isDraggingOver to false. -/
def elapse (s : MachineState) (now : Nat) : MachineState :=
  match s.timer with
  | some t => if t ≤ now then { isDraggingOver := false, timer := none } else s
  | none => s

/-- The three drag-related DOM events the widget listens to. -/
inductive DDEvent where
  | dragOver (event : DragEvent)
  | dragLeave (event : DragEvent)
  | drop (event : DragEvent)
deriving DecidableEq, Repr

/-- Trace of the handler bound to each event kind. -/
def handlerTrace (opts : Opts) (uppy : UppyCtx) : DDEvent → List Action
  | DDEvent.dragOver event => handleDragOver opts uppy event
  | DDEvent.dragLeave event => handleDragLeave opts event
  | DDEvent.drop event => handleDrop opts uppy event

/-- Dispatch one event at time `now`: first let any due timer fire, then
run the handler. -/
def step (opts : Opts) (uppy : UppyCtx) (s : MachineState) (now : Nat) (e : DDEvent) :
    MachineState :=
  runTrace now (elapse s now) (handlerTrace opts uppy e)

/-- Dispatch a time-stamped event sequence in order. -/
def runEvents (opts : Opts) (uppy : UppyCtx) (s : MachineState) :
    List (Nat × DDEvent) → MachineState
  | [] => s
  | (t, e) :: rest => runEvents opts uppy (step opts uppy s t e) rest

/-- Machine state observed at time `t`: dispatch the events stamped no
later than `t`, then let any due timer fire. -/
def observe (opts : Opts) (uppy : UppyCtx) (s0 : MachineState)
    (events : List (Nat × DDEvent)) (t : Nat) : MachineState :=
  elapse (runEvents opts uppy s0 (events.filter (fun p => p.1 ≤ t))) t

/-! Concrete fixtures used by witnesses and counterexamples. -/

/-- A directly picked file (no relative-path metadata). -/
def f0 : UppyFile := { name := "a.pdf", type := "application/pdf", relativePath := none }

/-- A file whose acquisition source supplied an empty relativePath string. -/
def fEmptyRel : UppyFile := { name := "b.txt", type := "text/plain", relativePath := some "" }

/-- A file discovered by directory expansion. -/
def fRel : UppyFile :=
  { name := "airbnb.pdf", type := "application/pdf", relativePath := some "docs/Old Prague/airbnb.pdf" }

/-- A drop payload whose manifest advertises files and which contains one file. -/
def evFiles : DragEvent := { types := ["Files"], files := [f0] }

/-- A payload whose manifest lacks a file-bearing type. -/
def evText : DragEvent := { types := ["text/plain"], files := [] }

/-- Options with all three observer callbacks registered. -/
def optsAll : Opts := { id := "DragDrop", onDragOver := true, onDragLeave := true, onDrop := true }

/-- Options with no observer callbacks registered (all are optional per
the plugin's typedef). -/
def optsNone : Opts :=
  { id := "DragDrop", onDragOver := false, onDragLeave := false, onDrop := false }

/-- An orchestrator that accepts every batch. -/
def okOrch : List FileDescriptor → Except String Unit := fun _ => Except.ok ()

/-- An orchestrator that rejects every batch with a restriction error. -/
def rejectOrch : List FileDescriptor → Except String Unit :=
  fun _ => Except.error "Cannot add new files: maxNumberOfFiles limit reached"

/-- Host context allowing new uploads. -/
def uppyAllow : UppyCtx := { allowNewUpload := true, addFilesFn := okOrch }

/-- Host context disallowing new uploads. -/
def uppyDeny : UppyCtx := { allowNewUpload := false, addFilesFn := okOrch }

/-- Host context that allows uploads but whose registration entry point
rejects the batch. -/
def uppyReject : UppyCtx := { allowNewUpload := true, addFilesFn := rejectOrch }

/-! Claim theorems. -/

/-- C2: the claim says every drag-over and drag-leave completes without an
error when the corresponding observer callback was not registered.  The
code evaluates `this.opts?.onDragOver(event)` and
`this.opts?.onDragLeave(event)` with the optional chain on `opts` (which
is never nullish) rather than on the callback, so an unregistered
callback is called as a function and a TypeError is raised — on every
drag-leave and on every accepting drag-over — contradicting the typedef
that marks both callbacks optional and the correctly guarded
`this.opts.onDrop?.(event)` in `handleDrop`.  This theorem evaluates the
code at the failing inputs. -/
theorem C2_bug_thm :
    Action.raiseTypeError ∈ handleDragLeave optsNone evFiles
      ∧ Action.raiseTypeError ∈ handleDragOver optsNone uppyAllow evFiles
      ∧ Action.raiseTypeError ∉ handleDrop optsNone uppyAllow evFiles := by
  refine ⟨by decide, by decide, ?_⟩
  decide

/-- C7 counterexample: a file handle whose acquisition source supplied the
empty string as relativePath.  The builder evaluates
`file.relativePath || null`, so the supplied value is not preserved
exactly (the empty string collapses to null), and null is produced even
though relative-path metadata was supplied. -/
theorem C7_counterexample :
    fEmptyRel.relativePath = some ""
      ∧ (buildDescriptor "DragDrop" fEmptyRel).meta_relativePath = none
      ∧ (buildDescriptor "DragDrop" fEmptyRel).meta_relativePath ≠ fEmptyRel.relativePath := by
  decide

/-- C7 amended: the Builder preserves any non-empty relativePath string
exactly and performs no path computation on it; it produces null when
relativePath is absent, and also when it is the empty string (JS
falsiness), so null is produced for every directly picked file but not
only for those.  The build step is a total function (never fails). -/
theorem C7_amended_thm (id : String) (f : UppyFile) (s : String) :
    (f.relativePath = some s → s ≠ "" →
        (buildDescriptor id f).meta_relativePath = some s)
      ∧ (f.relativePath = none → (buildDescriptor id f).meta_relativePath = none)
      ∧ (f.relativePath = some "" → (buildDescriptor id f).meta_relativePath = none)
      ∧ (buildDescriptor id f).name = f.name
      ∧ (buildDescriptor id f).source = id
      ∧ (buildDescriptor id f).data = f := by
  refine ⟨?_, ?_, ?_, rfl, rfl, rfl⟩
  · intro hrp hne
    simp [buildDescriptor, jsOrNull, hrp, hne]
  · intro hrp
    simp [buildDescriptor, jsOrNull, hrp]
  · intro hrp
    simp [buildDescriptor, jsOrNull, hrp]

/-- C7 witness: the amended theorem applied to a file discovered by
directory expansion, whose non-empty relativePath is preserved exactly. -/
theorem C7_witness :
    fRel.relativePath = some "docs/Old Prague/airbnb.pdf"
      ∧ (buildDescriptor "DragDrop" fRel).meta_relativePath = some "docs/Old Prague/airbnb.pdf" :=
  ⟨by decide,
    (C7_amended_thm "DragDrop" fRel "docs/Old Prague/airbnb.pdf").1 (by decide) (by decide)⟩

/-- C8: when the orchestrator's registration entry point rejects a
non-empty batch, `addFiles` catches the rejection in its try block and
routes the error to the logging channel; the whole trace is exactly the
submission followed by the log entry, so no fault propagates to the
calling acquisition channel. -/
theorem C8_thm (opts : Opts) (uppy : UppyCtx) (files : List UppyFile) (err : String)
    (hne : files ≠ [])
    (hrej : uppy.addFilesFn (buildDescriptors opts.id files) = Except.error err) :
    addFiles opts uppy files =
        [Action.submit (buildDescriptors opts.id files), Action.logged err]
      ∧ Action.logged err ∈ addFiles opts uppy files
      ∧ Action.raiseTypeError ∉ addFiles opts uppy files := by
  have h : addFiles opts uppy files =
      [Action.submit (buildDescriptors opts.id files), Action.logged err] := by
    simp [addFiles, hrej]
  refine ⟨h, ?_, ?_⟩
  · rw [h]; simp
  · rw [h]; simp

/-- C8 witness: a rejecting orchestrator applied to the one-file batch; the
rejection is logged and no error is raised. -/
theorem C8_witness :
    addFiles optsAll uppyReject [f0] =
        [Action.submit (buildDescriptors "DragDrop" [f0]),
         Action.logged "Cannot add new files: maxNumberOfFiles limit reached"] :=
  (C8_thm optsAll uppyReject [f0]
    "Cannot add new files: maxNumberOfFiles limit reached"
    (by decide) rfl).1

/-- C9: the picker channel never consults the allow-new-uploads flag — its
trace is identical whatever the flag's value — and for a non-empty file
collection it builds the descriptors and submits them to the
orchestrator even while new uploads are disallowed. -/
theorem C9_thm (opts : Opts) (orch : List FileDescriptor → Except String Unit)
    (files : List UppyFile) (hne : files ≠ []) :
    onInputChange opts { allowNewUpload := true, addFilesFn := orch } files =
        onInputChange opts { allowNewUpload := false, addFilesFn := orch } files
      ∧ Action.submit (buildDescriptors opts.id files) ∈
        onInputChange opts { allowNewUpload := false, addFilesFn := orch } files := by
  constructor
  · rfl
  · have hlen : files.length > 0 := List.length_pos.mpr hne
    simp [onInputChange, addFiles, hlen]

/-- C9 witness: one file selected through the picker while new uploads are
disallowed is still submitted. -/
theorem C9_witness :
    Action.submit (buildDescriptors "DragDrop" [f0]) ∈
      onInputChange optsNone { allowNewUpload := false, addFilesFn := okOrch } [f0] :=
  (C9_thm optsNone okOrch [f0] (by decide)).2

/-- C10: in the rejecting branch of a drag-over (payload lacks a
file-bearing type, or new uploads are disallowed) the handler cancels any
pending drag-leave debounce timer and leaves isDraggingOver unchanged; a
machine that was hovering with a pending debounce is left hovering with
no pending timer, and with no timer `elapse` never resets it to idle. -/
theorem C10_thm (opts : Opts) (uppy : UppyCtx) (event : DragEvent)
    (now fireAt later : Nat) (s : MachineState)
    (hrej : (hasFilesType event.types && uppy.allowNewUpload) = false) :
    runTrace now { isDraggingOver := true, timer := some fireAt }
        (handleDragOver opts uppy event) = { isDraggingOver := true, timer := none }
      ∧ (runTrace now s (handleDragOver opts uppy event)).isDraggingOver = s.isDraggingOver
      ∧ (runTrace now s (handleDragOver opts uppy event)).timer = none
      ∧ elapse { isDraggingOver := true, timer := none } later =
          { isDraggingOver := true, timer := none } := by
  rcases Bool.and_eq_false_iff.mp hrej with hcase | hcase <;>
    simp [handleDragOver, runTrace, applyAction, elapse, hcase]

/-- C10 witness: a hovering machine with a debounce pending at 60 ms
receives a drag-over while new uploads are disallowed; it stays hovering
with the timer cancelled. -/
theorem C10_witness :
    runTrace 20 { isDraggingOver := true, timer := some 60 }
        (handleDragOver optsAll uppyDeny evFiles) =
      { isDraggingOver := true, timer := none } :=
  (C10_thm optsAll uppyDeny evFiles 20 60 100
    { isDraggingOver := true, timer := some 60 } (by decide)).1

/-- C3: on drag-over, isDraggingOver is set to true (idle transitions to
hovering) and the drop-effect indicator is set to "copy" exactly when the
payload's type manifest advertises files and new uploads are allowed;
otherwise isDraggingOver is left unchanged and the indicator is set to
"none"; the indicator is never set to "move". -/
theorem C3_thm (opts : Opts) (uppy : UppyCtx) (event : DragEvent)
    (now : Nat) (s : MachineState) :
    (Action.setDraggingOver true ∈ handleDragOver opts uppy event ↔
        (hasFilesType event.types && uppy.allowNewUpload) = true)
      ∧ (Action.setDropEffect "copy" ∈ handleDragOver opts uppy event ↔
        (hasFilesType event.types && uppy.allowNewUpload) = true)
      ∧ ((hasFilesType event.types && uppy.allowNewUpload) = true →
        (runTrace now s (handleDragOver opts uppy event)).isDraggingOver = true)
      ∧ ((hasFilesType event.types && uppy.allowNewUpload) = false →
        (runTrace now s (handleDragOver opts uppy event)).isDraggingOver = s.isDraggingOver
          ∧ Action.setDropEffect "none" ∈ handleDragOver opts uppy event)
      ∧ Action.setDropEffect "move" ∉ handleDragOver opts uppy event := by
  cases hf : hasFilesType event.types <;>
    cases ha : uppy.allowNewUpload <;>
    cases ho : opts.onDragOver <;>
    simp [handleDragOver, runTrace, applyAction, hf, ha, ho]

/-- C3 witness: a file-bearing payload dragged over while uploads are
allowed transitions the machine from idle to hovering. -/
theorem C3_witness :
    (runTrace 0 { isDraggingOver := false, timer := none }
        (handleDragOver optsAll uppyAllow evFiles)).isDraggingOver = true :=
  (C3_thm optsAll uppyAllow evFiles 0 { isDraggingOver := false, timer := none }).2.2.1
    (by decide)

/-- C1 counterexample: a drop received while the orchestrator's
allow-new-uploads flag is false, with a payload advertising and carrying
one file.  The claim says the drop channel produces zero descriptors and
performs no submission; the code's `handleDrop` never consults the flag,
so it builds the descriptor batch and submits it to the orchestrator. -/
theorem C1_counterexample :
    uppyDeny.allowNewUpload = false
      ∧ Action.submit (buildDescriptors "DragDrop" [f0]) ∈
        handleDrop optsAll uppyDeny evFiles := by
  refine ⟨rfl, ?_⟩
  decide

/-- C1 amended: the drop channel consults neither the type manifest nor
the allow-new-uploads flag — its trace is identical whatever the flag's
value — and it produces descriptors and performs a submission exactly
when the file list extracted from the payload by directory traversal is
non-empty.  (A payload whose manifest lacks a file-bearing type yields an
empty extracted list in the browser, and only through that emptiness does
such a drop produce zero descriptors.) -/
theorem C1_amended_thm (opts : Opts) (orch : List FileDescriptor → Except String Unit)
    (event : DragEvent) (ds : List FileDescriptor) :
    handleDrop opts { allowNewUpload := true, addFilesFn := orch } event =
        handleDrop opts { allowNewUpload := false, addFilesFn := orch } event
      ∧ (event.files ≠ [] →
          Action.submit (buildDescriptors opts.id event.files) ∈
            handleDrop opts { allowNewUpload := false, addFilesFn := orch } event)
      ∧ (event.files = [] →
          Action.submit ds ∉
            handleDrop opts { allowNewUpload := false, addFilesFn := orch } event) := by
  refine ⟨rfl, ?_, ?_⟩
  · intro hne
    have hlen : event.files.length > 0 := List.length_pos.mpr hne
    simp [handleDrop, addFiles, hlen]
  · intro hempty
    simp [handleDrop, hempty]

/-- C1 witness: the amended theorem at a concrete drop carrying one file
while uploads are disallowed — the batch is submitted because the
extracted list is non-empty. -/
theorem C1_witness :
    Action.submit (buildDescriptors "DragDrop" [f0]) ∈
      handleDrop optsAll { allowNewUpload := false, addFilesFn := okOrch } evFiles :=
  (C1_amended_thm optsAll okOrch evFiles []).2.1 (by decide)

/-- Submission handling never schedules a debounce timer: `addFiles` only
submits and possibly logs. -/
lemma setTimeout_not_mem_addFiles (opts : Opts) (uppy : UppyCtx)
    (files : List UppyFile) (d : Nat) :
    Action.setTimeout d ∉ addFiles opts uppy files := by
  cases h : uppy.addFilesFn (buildDescriptors opts.id files) <;>
    simp [addFiles, h]

/-- C4 counterexample: with all three callbacks registered, a drag-over
received while new uploads are disallowed invokes no callback at all
(the rejecting branch returns before the callback line); and on a
drag-leave the callback is invoked although the drag-state update of that
event (the debounced isDraggingOver reset) has not taken effect — no
`setDraggingOver false` occurs anywhere in the drag-leave trace. -/
theorem C4_counterexample :
    Action.invokeCallback "dragover" evFiles ∉ handleDragOver optsAll uppyDeny evFiles
      ∧ Action.invokeCallback "dragleave" evFiles ∈ handleDragLeave optsAll evFiles
      ∧ Action.setDraggingOver false ∉ handleDragLeave optsAll evFiles := by
  decide

/-- C4 amended: when registered, the onDragOver callback is invoked with
the raw event after isDraggingOver was set true, but only on accepting
drag-overs (on a rejecting drag-over no callback is invoked); the onDrop
callback is invoked with the raw event after isDraggingOver was reset
false; the onDragLeave callback is invoked with the raw event after the
debounced reset is scheduled, but before that reset takes effect. -/
theorem C4_amended_thm (opts : Opts) (uppy : UppyCtx) (event : DragEvent) :
    (opts.onDragOver = true →
        (hasFilesType event.types && uppy.allowNewUpload) = true →
        ∃ pre, handleDragOver opts uppy event =
            pre ++ [Action.invokeCallback "dragover" event]
          ∧ Action.setDraggingOver true ∈ pre)
      ∧ (opts.onDrop = true →
        ∃ pre, handleDrop opts uppy event = pre ++ [Action.invokeCallback "drop" event]
          ∧ Action.setDraggingOver false ∈ pre)
      ∧ (opts.onDragLeave = true →
        ∃ pre, handleDragLeave opts event =
            pre ++ [Action.invokeCallback "dragleave" event]
          ∧ Action.setTimeout 50 ∈ pre
          ∧ Action.setDraggingOver false ∉ handleDragLeave opts event)
      ∧ ((hasFilesType event.types && uppy.allowNewUpload) = false →
        Action.invokeCallback "dragover" event ∉ handleDragOver opts uppy event) := by
  refine ⟨?_, ?_, ?_, ?_⟩
  · intro ho hacc
    simp only [Bool.and_eq_true] at hacc
    obtain ⟨hf, ha⟩ := hacc
    refine ⟨[Action.preventDefault, Action.stopPropagation, Action.setDropEffect "copy",
      Action.clearTimeout, Action.setDraggingOver true], ?_, by simp⟩
    simp [handleDragOver, hf, ha, ho]
  · intro hd
    refine ⟨[Action.preventDefault, Action.stopPropagation, Action.clearTimeout,
      Action.setDraggingOver false, Action.getDroppedFiles] ++
        (if event.files.length > 0 then
          Action.logged "[DragDrop] Files dropped" :: addFiles opts uppy event.files
        else []), ?_, by simp⟩
    simp [handleDrop, hd]
  · intro hl
    refine ⟨[Action.preventDefault, Action.stopPropagation, Action.clearTimeout,
      Action.setTimeout 50], ?_, by simp, ?_⟩
    · simp [handleDragLeave, hl]
    · simp [handleDragLeave, hl]
  · intro hrej
    rcases Bool.and_eq_false_iff.mp hrej with h | h <;> simp [handleDragOver, h]

/-- C4 witness: an accepting drag-over with a registered onDragOver
callback records the hovering transition before the callback action. -/
theorem C4_witness :
    Action.setDraggingOver true ∈ handleDragOver optsAll uppyAllow evFiles := by
  obtain ⟨pre, heq, hmem⟩ := (C4_amended_thm optsAll uppyAllow evFiles).1 rfl (by decide)
  rw [heq]
  exact List.mem_append_left _ hmem

/-- C5: the first five actions of every drop trace are exactly suppressing
the default action, stopping propagation, cancelling any pending debounce
timer, the immediate isDraggingOver reset, and directory traversal — so
the hovering-to-idle reset is strictly before traversal; no drop trace
ever schedules a debounce timer; and every submission occurs strictly
after the traversal step (in the suffix following the first five
actions). -/
theorem C5_thm (opts : Opts) (uppy : UppyCtx) (event : DragEvent)
    (ds : List FileDescriptor) (d : Nat) :
    (handleDrop opts uppy event).take 5 =
        [Action.preventDefault, Action.stopPropagation, Action.clearTimeout,
         Action.setDraggingOver false, Action.getDroppedFiles]
      ∧ Action.setTimeout d ∉ handleDrop opts uppy event
      ∧ (Action.submit ds ∈ handleDrop opts uppy event →
          Action.submit ds ∈ (handleDrop opts uppy event).drop 5) := by
  refine ⟨rfl, ?_, ?_⟩
  · cases ho : opts.onDrop <;> by_cases hl : event.files.length > 0 <;>
      simp [handleDrop, ho, hl, setTimeout_not_mem_addFiles]
  · intro hmem
    simp [handleDrop] at hmem ⊢
    exact hmem

/-- C5 witness: the one-file drop's submission indeed occurs in the suffix
after the reset and the traversal. -/
theorem C5_witness :
    Action.submit (buildDescriptors "DragDrop" [f0]) ∈
      (handleDrop optsAll uppyAllow evFiles).drop 5 :=
  (C5_thm optsAll uppyAllow evFiles (buildDescriptors "DragDrop" [f0]) 50).2.2 (by decide)

/-- An accepting drag-over leaves the machine hovering with no pending
timer, from any starting state. -/
lemma runTrace_dragOver_accept (opts : Opts) (uppy : UppyCtx) (event : DragEvent)
    (now : Nat) (s : MachineState)
    (hf : hasFilesType event.types = true) (ha : uppy.allowNewUpload = true) :
    runTrace now s (handleDragOver opts uppy event) =
      { isDraggingOver := true, timer := none } := by
  cases ho : opts.onDragOver <;>
    simp [handleDragOver, runTrace, applyAction, hf, ha, ho]

/-- A drag-leave keeps isDraggingOver and schedules the reset 50 ms after
the event. -/
lemma runTrace_dragLeave (opts : Opts) (event : DragEvent) (now : Nat) (s : MachineState) :
    runTrace now s (handleDragLeave opts event) =
      { isDraggingOver := s.isDraggingOver, timer := some (now + 50) } := by
  cases hl : opts.onDragLeave <;>
    simp [handleDragLeave, runTrace, applyAction, hl]

/-- Machine state after dispatching an accepting drag-over from idle. -/
lemma runEvents_over (opts : Opts) (uppy : UppyCtx) (event : DragEvent) (t0 : Nat)
    (hf : hasFilesType event.types = true) (ha : uppy.allowNewUpload = true) :
    runEvents opts uppy { isDraggingOver := false, timer := none }
        [(t0, DDEvent.dragOver event)] =
      { isDraggingOver := true, timer := none } := by
  simp [runEvents, step, handlerTrace,
    runTrace_dragOver_accept opts uppy event t0 _ hf ha]

/-- Machine state after an accepting drag-over followed by a drag-leave:
hovering, with the reset pending 50 ms after the leave. -/
lemma runEvents_over_leave (opts : Opts) (uppy : UppyCtx) (event : DragEvent)
    (t0 t1 : Nat)
    (hf : hasFilesType event.types = true) (ha : uppy.allowNewUpload = true) :
    runEvents opts uppy { isDraggingOver := false, timer := none }
        [(t0, DDEvent.dragOver event), (t1, DDEvent.dragLeave event)] =
      { isDraggingOver := true, timer := some (t1 + 50) } := by
  simp [runEvents, step, handlerTrace,
    runTrace_dragOver_accept opts uppy event t0 _ hf ha, elapse,
    runTrace_dragLeave]

/-- Machine state after over, leave, over: the second drag-over cancels the
pending reset, leaving the machine hovering with no timer (whatever the
event times). -/
lemma runEvents_over_leave_over (opts : Opts) (uppy : UppyCtx) (event : DragEvent)
    (t0 t1 t2 : Nat)
    (hf : hasFilesType event.types = true) (ha : uppy.allowNewUpload = true) :
    runEvents opts uppy { isDraggingOver := false, timer := none }
        [(t0, DDEvent.dragOver event), (t1, DDEvent.dragLeave event),
         (t2, DDEvent.dragOver event)] =
      { isDraggingOver := true, timer := none } := by
  simp [runEvents, step, handlerTrace,
    runTrace_dragOver_accept opts uppy event t0 _ hf ha, elapse,
    runTrace_dragLeave,
    runTrace_dragOver_accept opts uppy event t2 _ hf ha]

/-- C6: after a drag-leave the hovering-to-idle reset happens only once
50 ms have elapsed from the leave event — observing earlier than t1 + 50
still shows hovering, observing at or after t1 + 50 shows idle — and a
further drag-over before the deadline cancels the reset: for the sequence
drag-over at t0, drag-leave at t1, drag-over at t2 < t1 + 50, the
observed state is hovering at every time from t0 on. -/
theorem C6_thm (opts : Opts) (uppy : UppyCtx) (event : DragEvent)
    (t0 t1 t2 t u v : Nat)
    (hf : hasFilesType event.types = true) (ha : uppy.allowNewUpload = true)
    (h01 : t0 ≤ t1) (h12 : t1 ≤ t2) (h2 : t2 < t1 + 50) (ht : t0 ≤ t) :
    (observe opts uppy { isDraggingOver := false, timer := none }
        [(t0, DDEvent.dragOver event), (t1, DDEvent.dragLeave event),
         (t2, DDEvent.dragOver event)] t).isDraggingOver = true
      ∧ (t1 ≤ u → u < t1 + 50 →
          (observe opts uppy { isDraggingOver := false, timer := none }
            [(t0, DDEvent.dragOver event), (t1, DDEvent.dragLeave event)] u).isDraggingOver
            = true)
      ∧ (t1 + 50 ≤ v →
          (observe opts uppy { isDraggingOver := false, timer := none }
            [(t0, DDEvent.dragOver event), (t1, DDEvent.dragLeave event)] v).isDraggingOver
            = false) := by
  refine ⟨?_, ?_, ?_⟩
  · by_cases h1t : t1 ≤ t
    · by_cases h2t : t2 ≤ t
      · have hfil : List.filter (fun p => decide (p.1 ≤ t))
            [(t0, DDEvent.dragOver event), (t1, DDEvent.dragLeave event),
             (t2, DDEvent.dragOver event)] =
            [(t0, DDEvent.dragOver event), (t1, DDEvent.dragLeave event),
             (t2, DDEvent.dragOver event)] := by
          simp [List.filter, ht, h1t, h2t]
        simp [observe, hfil, runEvents_over_leave_over opts uppy event t0 t1 t2 hf ha,
          elapse]
      · have hfil : List.filter (fun p => decide (p.1 ≤ t))
            [(t0, DDEvent.dragOver event), (t1, DDEvent.dragLeave event),
             (t2, DDEvent.dragOver event)] =
            [(t0, DDEvent.dragOver event), (t1, DDEvent.dragLeave event)] := by
          simp [List.filter, ht, h1t, h2t]
        have hlt : ¬ (t1 + 50 ≤ t) := by omega
        simp [observe, hfil, runEvents_over_leave opts uppy event t0 t1 hf ha,
          elapse, hlt]
    · have h2t : ¬ (t2 ≤ t) := by omega
      have hfil : List.filter (fun p => decide (p.1 ≤ t))
          [(t0, DDEvent.dragOver event), (t1, DDEvent.dragLeave event),
           (t2, DDEvent.dragOver event)] =
          [(t0, DDEvent.dragOver event)] := by
        simp [List.filter, ht, h1t, h2t]
      simp [observe, hfil, runEvents_over opts uppy event t0 hf ha, elapse]
  · intro h1u hu
    have h0u : t0 ≤ u := by omega
    have hfil : List.filter (fun p => decide (p.1 ≤ u))
        [(t0, DDEvent.dragOver event), (t1, DDEvent.dragLeave event)] =
        [(t0, DDEvent.dragOver event), (t1, DDEvent.dragLeave event)] := by
      simp [List.filter, h0u, h1u]
    have hlt : ¬ (t1 + 50 ≤ u) := by omega
    simp [observe, hfil, runEvents_over_leave opts uppy event t0 t1 hf ha, elapse, hlt]
  · intro hv
    have h0v : t0 ≤ v := by omega
    have h1v : t1 ≤ v := by omega
    have hfil : List.filter (fun p => decide (p.1 ≤ v))
        [(t0, DDEvent.dragOver event), (t1, DDEvent.dragLeave event)] =
        [(t0, DDEvent.dragOver event), (t1, DDEvent.dragLeave event)] := by
      simp [List.filter, h0v, h1v]
    simp [observe, hfil, runEvents_over_leave opts uppy event t0 t1 hf ha, elapse, hv]

/-- C6 witness: drag-over at 0 ms, drag-leave at 10 ms, drag-over at 30 ms
(within the 50 ms debounce window); observed at 100 ms the machine is
still hovering, while without the cancelling drag-over it would be idle
by 70 ms and still hovering at 40 ms. -/
theorem C6_witness :
    (observe optsAll uppyAllow { isDraggingOver := false, timer := none }
        [(0, DDEvent.dragOver evFiles), (10, DDEvent.dragLeave evFiles),
         (30, DDEvent.dragOver evFiles)] 100).isDraggingOver = true
      ∧ (observe optsAll uppyAllow { isDraggingOver := false, timer := none }
          [(0, DDEvent.dragOver evFiles), (10, DDEvent.dragLeave evFiles)]
          40).isDraggingOver = true
      ∧ (observe optsAll uppyAllow { isDraggingOver := false, timer := none }
          [(0, DDEvent.dragOver evFiles), (10, DDEvent.dragLeave evFiles)]
          70).isDraggingOver = false := by
  obtain ⟨h1, h2, h3⟩ :=
    C6_thm optsAll uppyAllow evFiles 0 10 30 100 40 70
      (by decide) (by decide) (by decide) (by decide) (by decide) (by decide)
  exact ⟨h1, h2 (by decide) (by decide), h3 (by decide)⟩

end DragDrop
